import Mathlib

/-!
Shallow embedding of the spatial-subsetting and time-series extraction/fitting
core of `src/InSAR_postprocessing.py`, together with theorems settling the
frozen claims about it.

Conventions of the embedding:

* Coordinates, displacements and date numbers are rationals (`ℚ`); the Python
  code computes with floats, and the claims under study are about the exact
  arithmetic structure of the computations, not float rounding.
* External library calls are parameters of the embedded functions:
  - `geopy.distance.distance(..).m` becomes an abstract function
    `gdist : ℚ → ℚ → ℚ → ℚ → ℚ` (lat1 lon1 lat2 lon2, positional, matching the
    `(y, x)` tuples the source passes);
  - `scipy.optimize.leastsq` / `scipy.optimize.minimize` become abstract
    `solver` parameters (the solver returns its estimate, and for `minimize`
    also the final objective value `sln.fun`);
  - `np.sqrt` inside the linear misfit becomes an abstract `sqrtA : ℚ → ℚ`;
  - `matplotlib.path.Path.contains_points` is modelled from the spec (see
    `pointInPolygon`).
* Fallible code (Python `raise`, uncaught `IndexError` / `ValueError` /
  `ZeroDivisionError`) returns `Except PErr` or `Option`.
* `numpy` reductions (`np.min`, `np.max`, `np.argmin`, `np.diff`, `np.mean`,
  `np.linspace`) are embedded with their documented semantics; in particular
  `np.argmin` returns the FIRST index attaining the minimum.
* The nearest-pixel distance test in the source is
  `np.min(np.sqrt(sq)) >= tol`; since `Real.sqrt` is strictly monotone on
  nonnegatives, this is embedded equivalently as `tol^2 ≤ np.min(sq)` over the
  squared distances, keeping everything inside `ℚ`.
-/

/-- Error kinds observable from the embedded functions.  `noNearbyPoint` is the
`raise Exception("No pixels found within ...")` of the source;
`noDownturnFound` is the uncaught `IndexError` of the sinusoid phase guess
(the spec's name for it); `indexError` is the uncaught `IndexError` of the
first-date-column heuristic `np.where(...)[0][0]`; `valueError` is an uncaught
numpy `ValueError` (empty reduction / negative dimension). -/
inductive PErr where
  | noNearbyPoint
  | noDownturnFound
  | indexError
  | valueError
  deriving DecidableEq, Repr

deriving instance DecidableEq for Except

/-- Documented semantics of `np.min` on a list (the source only applies it to
nonempty data; callers in this file guard emptiness separately). -/
def npMin (l : List ℚ) : ℚ := (l.min?).getD 0

/-- Documented semantics of `np.max` on a list. -/
def npMax (l : List ℚ) : ℚ := (l.max?).getD 0

/-- Documented semantics of `np.argmin`: the first index attaining the
minimum value. -/
def npArgmin (l : List ℚ) : Nat := l.findIdx (fun x => decide (x = npMin l))

/-- Documented semantics of `np.mean` on a list. -/
def npMean (l : List ℚ) : ℚ := l.sum / l.length

/-- Documented semantics of `np.diff`: first differences
`l[1] - l[0], l[2] - l[1], ...`. -/
def npDiff (l : List ℚ) : List ℚ := (l.drop 1).zipWith (fun a b => a - b) l

/-- Documented semantics of `np.linspace(a, b, num := n)` with the default
`endpoint=True`: `n` evenly spaced points from `a` to `b` inclusive. -/
def linspace (a b : ℚ) (n : Nat) : List ℚ :=
  if n = 0 then []
  else if n = 1 then [a]
  else (List.range n).map (fun (i : ℕ) => a + (b - a) * (i : ℚ) / ((n : ℚ) - 1))

/-- Arithmetic mean of a list, used by the spec-side misfit formula. -/
def listMean (l : List ℚ) : ℚ := l.sum / l.length

/-- One record of the point-cloud dataset: its `Latitude` and `Longitude`
column values, and the full row of numeric column values (aligned with the
dataset's column headings). -/
structure InSARRecord where
  lat : ℚ
  lon : ℚ
  row : List ℚ
  deriving DecidableEq, Repr

/-- A Pandas DataFrame as the source uses it: column headings plus the ordered
records.  `Latitude` / `Longitude` are exposed directly on each record (in the
CSV they are columns; the embedding denormalises them for direct access, as
`Data["Latitude"]` does). -/
structure DataFrame where
  headings : List String
  records : List InSARRecord
  deriving DecidableEq, Repr

/-- Test for a query point lying exactly on the closed segment from
`(x1, y1)` to `(x2, y2)`: zero cross product plus bounding-box membership. -/
def onSegment (qx qy x1 y1 x2 y2 : ℚ) : Bool :=
  decide ((x2 - x1) * (qy - y1) = (y2 - y1) * (qx - x1)) &&
  decide (min x1 x2 ≤ qx) && decide (qx ≤ max x1 x2) &&
  decide (min y1 y2 ≤ qy) && decide (qy ≤ max y1 y2)

/-- One step of the even--odd ray cast: does the edge from `(x1, y1)` to
`(x2, y2)` cross the horizontal ray going right from `(qx, qy)`? -/
def edgeCrosses (qx qy x1 y1 x2 y2 : ℚ) : Bool :=
  decide (((y1 > qy) ∧ ¬(y2 > qy)) ∨ ((y2 > qy) ∧ ¬(y1 > qy))) &&
  decide (qx < (x2 - x1) * (qy - y1) / (y2 - y1) + x1)

/-- Edges of a polygon given by its vertex list, implicitly closed (last
vertex connects back to the first, as `matplotlib.path` does for containment
queries). -/
def polygonEdges (poly : List (ℚ × ℚ)) : List ((ℚ × ℚ) × (ℚ × ℚ)) :=
  poly.zip (poly.drop 1 ++ poly.take 1)

/-- Modelled from the spec: the source delegates point-in-polygon containment
to `matplotlib.path.Path.contains_points`, an external library call whose
boundary convention is implementation-defined; the spec fixes the behavior as
a standard even--odd ray-casting test that is boundary-inclusive (a point on
an edge or vertex counts as inside) and supports non-convex polygons. -/
def pointInPolygon (q : ℚ × ℚ) (poly : List (ℚ × ℚ)) : Bool :=
  (polygonEdges poly).any (fun e => onSegment q.1 q.2 e.1.1 e.1.2 e.2.1 e.2.2) ||
  ((polygonEdges poly).countP
    (fun e => edgeCrosses q.1 q.2 e.1.1 e.1.2 e.2.1 e.2.2)) % 2 == 1

/-- The source's `inpolygon(xq, yq, xv, yv)`: batched containment of the query
points `(xq[i], yq[i])` in the polygon with vertices `(xv[i], yv[i])`
(the reshape bookkeeping of the source is identity on a flat list). -/
def inpolygon (xq yq xv yv : List ℚ) : List Bool :=
  (xq.zip yq).map (fun q => pointInPolygon q (xv.zip yv))

/-- The source's `extract_from_polygon(Polylon, Polylat, Data)`: keep exactly
the records whose `(Longitude, Latitude)` pass the containment test, in their
original order (`Data[inbox]` boolean-mask selection). -/
def extract_from_polygon (Polylon Polylat : List ℚ) (Data : DataFrame) : DataFrame :=
  { headings := Data.headings
    records := Data.records.filter
      (fun r => pointInPolygon (r.lon, r.lat) (Polylon.zip Polylat)) }

/-- Squared degree-space distances from the query `(lat, lon)` to every
record, in dataset order: the source's
`(Data["Latitude"] - lat)**2 + (Data["Longitude"] - lon)**2` before the
`np.sqrt`. -/
def sqDistList (records : List InSARRecord) (lat lon : ℚ) : List ℚ :=
  records.map (fun r => (r.lat - lat) ^ 2 + (r.lon - lon) ^ 2)

/-- The nearest-record selection shared (with different tolerances `tol`) by
`extract_series_from_latlon` (tol = 0.5) and `plot_series_latlon` (tol = 1):
fail when `np.min(dist) >= tol`, else `np.argmin(dist)`.  The source compares
`np.min(np.sqrt(sq)) >= tol`; the embedding compares the equivalent
`tol^2 ≤ np.min(sq)` on the squared distances (`Real.sqrt` is strictly
monotone on nonnegatives).  `np.min` of an empty array raises `ValueError`. -/
def nearest_index (records : List InSARRecord) (lat lon tol : ℚ) : Except PErr Nat :=
  let dist := sqDistList records lat lon
  if dist = [] then .error .valueError
  else if tol ^ 2 ≤ npMin dist then .error .noNearbyPoint
  else .ok (npArgmin dist)

/-- Python's `head.startswith(pre)`, embedded on the character lists of the
strings (this is its documented semantics; `String.startsWith` itself is
byte-level well-founded recursion that the kernel cannot evaluate). -/
def startswith (pre head : String) : Bool := pre.data.isPrefixOf head.data

/-- The first-date-column heuristic
`np.where([head.startswith("20") for head in headings])[0][0]` shared by
`extract_series_from_latlon`, `get_dates`, `get_mean_series` and the plotting
helpers: the first heading beginning with the characters "20", `none`
(an uncaught `IndexError` in the source) when there is no such heading. -/
def idx_firstdate? (headings : List String) : Option Nat :=
  headings.findIdx? (fun head => startswith "20" head)

/-- The source's `extract_series_from_latlon(lat, lon, Data, factor)`:
nearest record within 0.5 degrees, then the date axis from the first-date
column onwards and the record's row values scaled by `factor`.  The external
`datetime.strptime` / `date2num` conversion of a date heading to a date
number is the abstract parameter `parse`. -/
def extract_series_from_latlon (parse : String → ℚ) (lat lon : ℚ) (Data : DataFrame)
    (factor : ℚ) : Except PErr (List ℚ × List ℚ) :=
  match nearest_index Data.records lat lon (1/2) with
  | .error e => .error e
  | .ok index =>
    match idx_firstdate? Data.headings with
    | none => .error .indexError
    | some i =>
      let dates := (Data.headings.drop i).map parse
      let series := (((Data.records.getD index ⟨0, 0, []⟩).row).drop i).map (factor * ·)
      .ok (dates, series)

/-- The source's `get_dates(Data)`: the date axis of a DataFrame, derived via
the first-date-column heuristic (with the external string-to-date-number
conversion as the abstract parameter `parse`). -/
def get_dates (parse : String → ℚ) (Data : DataFrame) : Except PErr (List ℚ) :=
  match idx_firstdate? Data.headings with
  | none => .error .indexError
  | some i => .ok ((Data.headings.drop i).map parse)

/-- The source's `get_mean_series(Data)`: the pointwise mean across records of
the per-date columns (`np.mean(Series, axis=0)`), together with the record
count `Data.shape[0]`. -/
def get_mean_series (Data : DataFrame) : Except PErr (List ℚ × Nat) :=
  match idx_firstdate? Data.headings with
  | none => .error .indexError
  | some i =>
    .ok (((Data.records.map (fun r => r.row.drop i)).transpose).map listMean,
         Data.records.length)

/-- The source's `rezero_series(series, dates, zerodate)` on the
already-numeric `zerodateasfloat` path: subtract from every value the value at
the index whose date is nearest (`(np.abs(dates - dateasnum)).argmin()`) to
the reference date.  A new list is produced; the input is untouched (the
embedding is pure, as is the numpy expression `series - series[idx]`). -/
def rezero_series (series dates : List ℚ) (dateasnum : ℚ) : List ℚ :=
  let idx := npArgmin (dates.map (fun d => |d - dateasnum|))
  series.map (fun v => v - series.getD idx 0)

/-- The source's `segment_line_to_boxes(x0, x1, y0, y1, spacing, width)` with
the geodesic distance `geopy.distance.distance((lat1,lon1),(lat2,lon2)).m` as
the abstract parameter `gdist` (applied positionally exactly as the source
does).  Fallible steps become `none`:
`Len/spacing` with `spacing = 0` raises `ZeroDivisionError`;
`np.linspace` with a negative `num` raises `ValueError`;
`1/NormLen` with `NormLen = 0` raises `ZeroDivisionError`;
`np.zeros((len(lats)-1, 5))` with `len(lats) = 0` raises `ValueError`
(negative dimension).  On success, returns
`(BOXESX, BOXESY, lats, lons)` with one `(rectx, recty)` ring per consecutive
pair of sample points. -/
def segment_line_to_boxes (gdist : ℚ → ℚ → ℚ → ℚ → ℚ)
    (x0 x1 y0 y1 spacing width : ℚ) :
    Option (List (List ℚ) × List (List ℚ) × List ℚ × List ℚ) :=
  let Len := gdist y0 x0 y1 x1
  if spacing = 0 then none else
  let nopoints : ℤ := ⌊Len / spacing⌋
  if nopoints < 0 then none else
  let n := nopoints.toNat
  let lats := linspace y0 y1 n
  let lons := linspace x0 x1 n
  let pvx := -(y1 - y0)
  let pvy := x1 - x0
  let NormLen := gdist 0 0 pvx pvy
  if NormLen = 0 then none else
  let ux := pvx / NormLen
  let uy := pvy / NormLen
  if n = 0 then none else
  let boxes := (List.range (n - 1)).map (fun i =>
    let trx := lons.getD i 0 - ux * width
    let tlx := lons.getD (i + 1) 0 - ux * width
    let brx := lons.getD i 0 + ux * width
    let blx := lons.getD (i + 1) 0 + ux * width
    let trY := lats.getD i 0 - uy * width
    let tlY := lats.getD (i + 1) 0 - uy * width
    let brY := lats.getD i 0 + uy * width
    let blY := lats.getD (i + 1) 0 + uy * width
    ([trx, tlx, blx, brx, trx], [trY, tlY, blY, brY, trY]))
  some (boxes.map Prod.fst, boxes.map Prod.snd, lats, lons)

/-- Initial guesses of `fit_straight_line_to_series`, as the source computes
them: `guess_slope = (np.max(Series) - np.min(Series)) / (t[-1] - t[0])` and
`guess_intercept = Series[0]`, passed to `leastsq` as
`[guess_slope, guess_intercept]`. -/
def lin_guesses (Series dates : List ℚ) : ℚ × ℚ :=
  ((npMax Series - npMin Series) / (dates.getLastD 0 - dates.headD 0),
   Series.headD 0)

/-- The slope initial guess of `fit_straight_line_to_series` with the division
modelled as partial: the source applies
`(np.max(Series) - np.min(Series)) / (t[-1] - t[0])` unconditionally, with no
guard on the denominator, so the value is well-defined exactly when
`t[-1] - t[0] ≠ 0`. -/
def lin_guess_slope? (Series dates : List ℚ) : Option ℚ :=
  if dates.getLastD 0 - dates.headD 0 = 0 then none
  else some ((npMax Series - npMin Series) / (dates.getLastD 0 - dates.headD 0))

/-- The source's `fit_straight_line_to_series(Series, dates)`:
`scipy.optimize.leastsq` is the abstract parameter `solver` (mapping the
initial-guess pair to the estimated `(est_slope, est_intercept)`), `np.sqrt`
is the abstract parameter `sqrtA`.  Returns
`(misfit, est_slope, est_intercept)` with
`misfit = np.sum(np.sqrt(np.abs(Series**2 - data_fit**2))) / len(dates)` and
`data_fit = est_slope * (t - t[0]) + est_intercept`. -/
def fit_straight_line_to_series (solver : ℚ × ℚ → ℚ × ℚ) (sqrtA : ℚ → ℚ)
    (Series dates : List ℚ) : ℚ × ℚ × ℚ :=
  let est := solver (lin_guesses Series dates)
  let data_fit := dates.map (fun τ => est.1 * (τ - dates.headD 0) + est.2)
  let misfit :=
    (Series.zipWith (fun v f => sqrtA |v ^ 2 - f ^ 2|) data_fit).sum / dates.length
  (misfit, est.1, est.2)

/-- The linear misfit as the spec words it: the mean over all points of
`sqrt(|value^2 - fitted^2|)`, where `fitted = slope * (t - t0) + intercept`
and `t0` is the first date of the series. -/
def spec_lin_misfit (sqrtA : ℚ → ℚ) (Series dates : List ℚ)
    (slope intercept : ℚ) : ℚ :=
  listMean ((Series.zip dates).map
    (fun p => sqrtA |p.1 ^ 2 - (slope * (p.2 - dates.headD 0) + intercept) ^ 2|))

/-- The linear slope initial guess as the spec words it:
`(max(values) - min(values)) / (t_last - t_first)`. -/
def spec_lin_slope0 (Series dates : List ℚ) : ℚ :=
  (npMax Series - npMin Series) / (dates.getLastD 0 - dates.headD 0)

/-- The linear intercept initial guess as the spec words it:
`series.values[0]`. -/
def spec_lin_intercept0 (Series : List ℚ) : ℚ := Series.headD 0

/-- The first downturn of a series:
`np.argwhere(np.diff(Series) <= 0)[0][0]`, i.e. the first index whose first
difference is non-positive; `none` (an uncaught `IndexError` in the source,
the spec's `NoDownturnFound`) when every first difference is positive. -/
def first_downturn (Series : List ℚ) : Option Nat :=
  (npDiff Series).findIdx? (fun d => decide (d ≤ 0))

/-- Initial guesses of `fit_sinusoid_to_series`, as the source computes them
(in the source's order `[guess_amp, guess_period, guess_phase, guess_mean]`):
`mean0 = np.mean(data)`, `period0 = 365`,
`phase0 = period0/4 - (t[first downturn] - t[0])`,
`amp0 = (np.max(Series) - np.min(Series)) / 2`. -/
def sinusoid_guesses (Series dates : List ℚ) : Except PErr (List ℚ) :=
  let mean0 := npMean Series
  let period0 : ℚ := 365
  match first_downturn Series with
  | none => .error .noDownturnFound
  | some i =>
    let phase0 := period0 / 4 - (dates.getD i 0 - dates.headD 0)
    let amp0 := (npMax Series - npMin Series) / 2
    .ok [amp0, period0, phase0, mean0]

/-- The box constraints `bnds = ((0,30), (0,400), (-20,400), (0,100))` that
`fit_sinusoid_to_series` passes to `scipy.optimize.minimize`, as a predicate
on `(amplitude, period, phase, mean)`. -/
def in_sin_bounds (x : ℚ × ℚ × ℚ × ℚ) : Prop :=
  0 ≤ x.1 ∧ x.1 ≤ 30 ∧ 0 ≤ x.2.1 ∧ x.2.1 ≤ 400 ∧
  -20 ≤ x.2.2.1 ∧ x.2.2.1 ≤ 400 ∧ 0 ≤ x.2.2.2 ∧ x.2.2.2 ≤ 100

instance (x : ℚ × ℚ × ℚ × ℚ) : Decidable (in_sin_bounds x) := by
  unfold in_sin_bounds; infer_instance

/-- The source's `fit_sinusoid_to_series(Series, dates)`:
`scipy.optimize.minimize` is the abstract parameter `solver`, mapping the
initial-guess list to the estimate `sln.x = (amp, period, phase, mean)` and
the final objective value `sln.fun`.  Returns
`(misfit, est_amp, est_period, est_phase, est_mean)` with
`misfit = sln.fun / len(t)`. -/
def fit_sinusoid_to_series (solver : List ℚ → (ℚ × ℚ × ℚ × ℚ) × ℚ)
    (Series dates : List ℚ) : Except PErr (ℚ × ℚ × ℚ × ℚ × ℚ) :=
  match sinusoid_guesses Series dates with
  | .error e => .error e
  | .ok guess =>
    let sln := solver guess
    .ok (sln.2 / dates.length, sln.1.1, sln.1.2.1, sln.1.2.2.1, sln.1.2.2.2)

/-! ### Helper lemmas about the embedded numpy primitives -/

theorem min?_isSome_of_ne_nil {l : List ℚ} (h : l ≠ []) : ∃ m, l.min? = some m := by
  cases hl : l.min? with
  | none => exact absurd (List.min?_eq_none_iff.mp hl) h
  | some m => exact ⟨m, rfl⟩

theorem npMin_mem {l : List ℚ} (h : l ≠ []) : npMin l ∈ l := by
  obtain ⟨m, hm⟩ := min?_isSome_of_ne_nil h
  have := List.min?_mem (fun a b : ℚ => min_choice a b) hm
  simpa [npMin, hm] using this

theorem npMin_le {l : List ℚ} {x : ℚ} (hx : x ∈ l) : npMin l ≤ x := by
  obtain ⟨m, hm⟩ := min?_isSome_of_ne_nil (List.ne_nil_of_mem hx)
  have h2 := (List.le_min?_iff (fun a b c : ℚ => le_min_iff) hm).mp (le_refl m)
  simpa [npMin, hm] using h2 x hx

theorem npMin_eq_of_mem_of_le {l : List ℚ} {m : ℚ} (hm : m ∈ l)
    (hle : ∀ x ∈ l, m ≤ x) : npMin l = m :=
  le_antisymm (npMin_le hm) (hle _ (npMin_mem (List.ne_nil_of_mem hm)))

theorem npArgmin_lt_length {l : List ℚ} (h : l ≠ []) : npArgmin l < l.length :=
  List.findIdx_lt_length_of_exists ⟨npMin l, npMin_mem h, by simp⟩

theorem getD_eq_getElem_q {l : List ℚ} {i : Nat} (h : i < l.length) :
    l.getD i 0 = l[i] := by
  rw [List.getD_eq_getElem?_getD, List.getElem?_eq_getElem h]
  rfl

theorem npArgmin_getD {l : List ℚ} (h : l ≠ []) :
    l.getD (npArgmin l) 0 = npMin l := by
  have hlt := npArgmin_lt_length h
  rw [getD_eq_getElem_q hlt]
  have := List.findIdx_getElem (p := fun x => decide (x = npMin l)) (w := hlt)
  simpa using this

theorem npArgmin_least {l : List ℚ} {j : Nat} (hj : j < npArgmin l) :
    l.getD j 0 ≠ npMin l := by
  have hlen : j < l.length :=
    Nat.lt_of_lt_of_le hj (List.findIdx_le_length _)
  have := List.not_of_lt_findIdx (p := fun x => decide (x = npMin l)) hj
  rw [List.getD_eq_getElem?_getD, List.getElem?_eq_getElem hlen]
  simpa using this

theorem npArgmin_least_lt {l : List ℚ} {j : Nat} (hj : j < npArgmin l) :
    npMin l < l.getD j 0 := by
  have hlen : j < l.length :=
    Nat.lt_of_lt_of_le hj (List.findIdx_le_length _)
  have hmem : l.getD j 0 ∈ l := by
    rw [List.getD_eq_getElem?_getD, List.getElem?_eq_getElem hlen]
    exact List.getElem_mem hlen
  exact lt_of_le_of_ne (npMin_le hmem) (Ne.symm (npArgmin_least hj))

theorem npArgmin_eq_zero_of_head {x : ℚ} {l : List ℚ}
    (hx : ∀ y ∈ x :: l, x ≤ y) : npArgmin (x :: l) = 0 := by
  have hmin : npMin (x :: l) = x :=
    npMin_eq_of_mem_of_le (List.mem_cons_self x l) hx
  unfold npArgmin
  rw [List.findIdx_cons]
  simp [hmin]

theorem npDiff_length (l : List ℚ) : (npDiff l).length = l.length - 1 := by
  simp [npDiff, Nat.min_def]

theorem npDiff_getD (l : List ℚ) (i : Nat) (h : i < (npDiff l).length) :
    (npDiff l).getD i 0 = l.getD (i + 1) 0 - l.getD i 0 := by
  have h1 : i + 1 < l.length := by rw [npDiff_length] at h; omega
  have h0 : i < l.length := by omega
  rw [getD_eq_getElem_q h, getD_eq_getElem_q h1, getD_eq_getElem_q h0]
  simp only [npDiff, List.getElem_zipWith, List.getElem_drop]
  congr 1
  apply Option.some.inj
  rw [← List.getElem?_eq_getElem, ← List.getElem?_eq_getElem, Nat.add_comm]

theorem getD_map_of_lt (f : ℚ → ℚ) {l : List ℚ} {i : Nat} (h : i < l.length) :
    (l.map f).getD i 0 = f (l.getD i 0) := by
  rw [List.getD_eq_getElem?_getD, List.getElem?_eq_getElem (by simpa using h),
    List.getD_eq_getElem?_getD, List.getElem?_eq_getElem h]
  simp

section

attribute [local semireducible] Rat.mul Rat.inv Rat.add Rat.sub

/-! ### Claim theorems -/

/-- C6: the point-in-polygon test is boundary-inclusive and supports
non-convex polygons; for the unit square polygon, (0.5, 0.5) is reported
inside, (2, 2) is reported outside, and a query equal to a polygon vertex (a
boundary point) is reported inside. -/
theorem c6_pointInPolygon_unit_square :
    pointInPolygon (1/2, 1/2) [(0,0), (1,0), (1,1), (0,1)] = true ∧
    pointInPolygon (2, 2) [(0,0), (1,0), (1,1), (0,1)] = false ∧
    pointInPolygon (0, 0) [(0,0), (1,0), (1,1), (0,1)] = true := by
  decide

/-- C8: polygon filtering returns exactly the sub-collection of records whose
(longitude, latitude) pass the point-in-polygon test, preserving the original
relative order (the result is a sublist of the input), and when every record
lies outside the polygon the result is the empty collection, returned
normally. -/
theorem c8_extract_from_polygon (Polylon Polylat : List ℚ) (Data : DataFrame) :
    (extract_from_polygon Polylon Polylat Data).records.Sublist Data.records ∧
    (∀ r, r ∈ (extract_from_polygon Polylon Polylat Data).records ↔
      r ∈ Data.records ∧
      pointInPolygon (r.lon, r.lat) (Polylon.zip Polylat) = true) ∧
    ((∀ r ∈ Data.records,
        pointInPolygon (r.lon, r.lat) (Polylon.zip Polylat) = false) →
      (extract_from_polygon Polylon Polylat Data).records = []) := by
  refine ⟨List.filter_sublist _, fun r => by simp [extract_from_polygon],
    fun h => ?_⟩
  simp only [extract_from_polygon, List.filter_eq_nil_iff]
  intro r hr
  simp [h r hr]

/-- C8 witness: a dataset whose single record lies outside the unit square
filters to the empty collection. -/
theorem c8_witness :
    (extract_from_polygon [0, 1, 1, 0] [0, 0, 1, 1]
      ⟨["Latitude"], [⟨5, 5, [1]⟩]⟩).records = [] :=
  (c8_extract_from_polygon [0, 1, 1, 0] [0, 0, 1, 1]
    ⟨["Latitude"], [⟨5, 5, [1]⟩]⟩).2.2 (by decide)

/-- C7: rezero_series subtracts from every value the value at the index whose
date has minimum absolute difference from the reference date (nearest-date
match, ties resolving to the first occurrence), producing a new series (the
embedding is pure, so the input is unchanged); rezeroing a series at its own
first date makes the first value exactly 0. -/
theorem c7_rezero_series (series dates : List ℚ) (z : ℚ)
    (hs : series ≠ []) (hd : dates ≠ []) :
    ((dates.map (fun d => |d - z|)).getD
        (npArgmin (dates.map (fun d => |d - z|))) 0 =
      npMin (dates.map (fun d => |d - z|))) ∧
    (∀ j, j < npArgmin (dates.map (fun d => |d - z|)) →
      npMin (dates.map (fun d => |d - z|)) <
        (dates.map (fun d => |d - z|)).getD j 0) ∧
    (∀ i, i < series.length →
      (rezero_series series dates z).getD i 0 =
        series.getD i 0 -
        series.getD (npArgmin (dates.map (fun d => |d - z|))) 0) ∧
    (rezero_series series dates (dates.headD 0)).getD 0 0 = 0 := by
  have hmap : dates.map (fun d => |d - z|) ≠ [] := by
    simpa using hd
  refine ⟨npArgmin_getD hmap, fun j hj => npArgmin_least_lt hj, fun i hi => ?_, ?_⟩
  · unfold rezero_series
    exact getD_map_of_lt _ hi
  · obtain ⟨d0, dtl, rfl⟩ := List.exists_cons_of_ne_nil hd
    obtain ⟨s0, stl, rfl⟩ := List.exists_cons_of_ne_nil hs
    have hzero : npArgmin ((d0 :: dtl).map (fun d => |d - (d0 :: dtl).headD 0|)) = 0 := by
      have hrw : (d0 :: dtl).map (fun d => |d - (d0 :: dtl).headD 0|) =
          |d0 - d0| :: dtl.map (fun d => |d - d0|) := by simp
      rw [hrw]
      apply npArgmin_eq_zero_of_head
      intro y hy
      have h0 : |d0 - d0| = 0 := by simp
      rcases List.mem_cons.mp hy with h | h
      · simp [h]
      · obtain ⟨d, _, rfl⟩ := List.mem_map.mp h
        rw [h0]
        exact abs_nonneg _
    simp only [rezero_series]
    rw [hzero]
    simp

/-- C10: the slope initial guess of the linear fit divides by
t[-1] - t[0] with no guard: it is well-defined exactly when the series' first
and last dates differ, agrees with the guess the fit uses when defined, and
any single-point series makes the denominator zero. -/
theorem c10_slope_guess_division (Series dates : List ℚ) :
    (lin_guess_slope? Series dates = none ↔
      dates.getLastD 0 = dates.headD 0) ∧
    (∀ s, lin_guess_slope? Series dates = some s →
      s = (lin_guesses Series dates).1) ∧
    (∀ t0 : ℚ, dates = [t0] → lin_guess_slope? Series dates = none) := by
  refine ⟨?_, fun s hs => ?_, fun t0 ht => ?_⟩
  · unfold lin_guess_slope?
    split <;> rename_i h
    · simpa using sub_eq_zero.mp h
    · simpa using fun hc => h (sub_eq_zero.mpr hc)
  · unfold lin_guess_slope? at hs
    split at hs
    · cases hs
    · cases hs
      rfl
  · subst ht
    unfold lin_guess_slope?
    simp

/-- C10 witness: the single-point series with date 5 has an undefined
(zero-denominator) slope initial guess. -/
theorem c10_witness : lin_guess_slope? [1, 2] [5] = none :=
  (c10_slope_guess_division [1, 2] [5]).2.2 5 rfl

/-- C7 witness: rezeroing the series [3,4,5] over dates [0,10,20] at its own
first date makes the first value 0. -/
theorem c7_witness :
    (rezero_series [3, 4, 5] [0, 10, 20]
      (([0, 10, 20] : List ℚ).headD 0)).getD 0 0 = 0 :=
  (c7_rezero_series [3, 4, 5] [0, 10, 20] 10 (by decide) (by decide)).2.2.2

theorem sqDistList_ne_nil {records : List InSARRecord} {lat lon : ℚ}
    (h : records ≠ []) : sqDistList records lat lon ≠ [] := by
  simpa [sqDistList] using h

theorem sqDistList_nonneg {records : List InSARRecord} {lat lon x : ℚ}
    (hx : x ∈ sqDistList records lat lon) : 0 ≤ x := by
  obtain ⟨r, _, rfl⟩ := List.mem_map.mp hx
  positivity

theorem nearest_index_error_iff {records : List InSARRecord} {lat lon tol : ℚ}
    (hne : records ≠ []) :
    nearest_index records lat lon tol = .error .noNearbyPoint ↔
      tol ^ 2 ≤ npMin (sqDistList records lat lon) := by
  simp only [nearest_index]
  rw [if_neg (sqDistList_ne_nil hne)]
  by_cases h : tol ^ 2 ≤ npMin (sqDistList records lat lon)
  · rw [if_pos h]
    simp [h]
  · rw [if_neg h]
    simp [h]

theorem nearest_index_ok_of_not_le {records : List InSARRecord} {lat lon tol : ℚ}
    (hne : records ≠ [])
    (h : ¬ tol ^ 2 ≤ npMin (sqDistList records lat lon)) :
    nearest_index records lat lon tol =
      .ok (npArgmin (sqDistList records lat lon)) := by
  simp only [nearest_index]
  rw [if_neg (sqDistList_ne_nil hne), if_neg h]

theorem nearest_index_of_ok {records : List InSARRecord} {lat lon tol : ℚ}
    {k : Nat} (hne : records ≠ [])
    (hk : nearest_index records lat lon tol = .ok k) :
    ¬ tol ^ 2 ≤ npMin (sqDistList records lat lon) ∧
      k = npArgmin (sqDistList records lat lon) := by
  simp only [nearest_index] at hk
  rw [if_neg (sqDistList_ne_nil hne)] at hk
  by_cases h : tol ^ 2 ≤ npMin (sqDistList records lat lon)
  · rw [if_pos h] at hk
    cases hk
  · rw [if_neg h] at hk
    exact ⟨h, (Except.ok.inj hk).symm⟩

theorem nearest_index_cases {records : List InSARRecord} {lat lon : ℚ}
    (tol : ℚ) (hne : records ≠ []) :
    nearest_index records lat lon tol = .error .noNearbyPoint ∨
      nearest_index records lat lon tol =
        .ok (npArgmin (sqDistList records lat lon)) := by
  by_cases h : tol ^ 2 ≤ npMin (sqDistList records lat lon)
  · exact Or.inl ((nearest_index_error_iff hne).mpr h)
  · exact Or.inr (nearest_index_ok_of_not_le hne h)

/-- C2: nearest-record extraction fails exactly when the minimum degree-space
distance to every record is at least the tolerance (equivalently, the minimum
squared distance is at least the squared tolerance); on success it selects
the record at minimum distance with ties resolving to the first record in
dataset order; a query exactly equal to some record's coordinates has minimum
distance 0 and succeeds for any tolerance > 0; at the
`extract_series_from_latlon` call site the tolerance is 0.5. -/
theorem c2_nearest_record (records : List InSARRecord) (lat lon tol : ℚ)
    (hne : records ≠ []) (htol : 0 < tol) :
    (nearest_index records lat lon tol = .error .noNearbyPoint ↔
      tol ^ 2 ≤ npMin (sqDistList records lat lon)) ∧
    (∀ k, nearest_index records lat lon tol = .ok k →
      k < records.length ∧
      (sqDistList records lat lon).getD k 0 =
        npMin (sqDistList records lat lon) ∧
      ∀ j, j < k →
        npMin (sqDistList records lat lon) <
          (sqDistList records lat lon).getD j 0) ∧
    ((∃ r ∈ records, r.lat = lat ∧ r.lon = lon) →
      npMin (sqDistList records lat lon) = 0 ∧
      nearest_index records lat lon tol =
        .ok (npArgmin (sqDistList records lat lon))) ∧
    (∀ parse headings factor,
      extract_series_from_latlon parse lat lon ⟨headings, records⟩ factor =
          .error .noNearbyPoint ↔
        (1/2 : ℚ) ^ 2 ≤ npMin (sqDistList records lat lon)) := by
  have hdist : sqDistList records lat lon ≠ [] := sqDistList_ne_nil hne
  refine ⟨nearest_index_error_iff hne, fun k hk => ?_, fun hex => ?_,
    fun parse headings factor => ?_⟩
  · obtain ⟨-, rfl⟩ := nearest_index_of_ok hne hk
    refine ⟨?_, npArgmin_getD hdist, fun j hj => npArgmin_least_lt hj⟩
    have := npArgmin_lt_length hdist
    simpa [sqDistList] using this
  · obtain ⟨r, hr, hrlat, hrlon⟩ := hex
    have hmem : (0 : ℚ) ∈ sqDistList records lat lon := by
      refine List.mem_map.mpr ⟨r, hr, ?_⟩
      simp [hrlat, hrlon]
    have hmin : npMin (sqDistList records lat lon) = 0 :=
      npMin_eq_of_mem_of_le hmem (fun x hx => sqDistList_nonneg hx)
    have hlt : ¬ tol ^ 2 ≤ npMin (sqDistList records lat lon) := by
      rw [hmin]
      exact not_le.mpr (pow_pos htol 2)
    exact ⟨hmin, nearest_index_ok_of_not_le hne hlt⟩
  · rcases nearest_index_cases (1/2) hne with hni | hni
    · simp only [extract_series_from_latlon]
      rw [hni]
      exact ⟨fun _ => (nearest_index_error_iff hne).mp hni, fun _ => rfl⟩
    · have hnot := (nearest_index_of_ok hne hni).1
      simp only [extract_series_from_latlon]
      rw [hni]
      cases hidx : idx_firstdate? headings with
      | none => simpa using hnot
      | some i => simpa using hnot

/-- C2 witness: a two-record dataset queried exactly at the second record's
coordinates has minimum distance 0 and succeeds at tolerance 0.5. -/
theorem c2_witness :
    npMin (sqDistList [⟨1, 1, []⟩, ⟨0, 0, []⟩] 0 0) = 0 ∧
    nearest_index [⟨1, 1, []⟩, ⟨0, 0, []⟩] 0 0 (1/2) =
      .ok (npArgmin (sqDistList [⟨1, 1, []⟩, ⟨0, 0, []⟩] 0 0)) :=
  (c2_nearest_record [⟨1, 1, []⟩, ⟨0, 0, []⟩] 0 0 (1/2) (by decide)
    (by decide)).2.2.1 ⟨⟨0, 0, []⟩, by decide, rfl, rfl⟩

/-- C9: for a dataset in which no column label begins with "20", every
operation that locates the date axis via the first-date-column heuristic
(time-series extraction, date-axis derivation, mean-series aggregation) fails
with the uncaught out-of-bounds index error, not with any error of the
documented taxonomy. -/
theorem c9_no_date_column (parse : String → ℚ) (Data : DataFrame)
    (h : ∀ head ∈ Data.headings, startswith "20" head = false) :
    get_dates parse Data = .error .indexError ∧
    get_mean_series Data = .error .indexError ∧
    ∀ lat lon factor, Data.records ≠ [] →
      ¬ (1/2 : ℚ) ^ 2 ≤ npMin (sqDistList Data.records lat lon) →
      extract_series_from_latlon parse lat lon Data factor =
        .error .indexError := by
  have hidx : idx_firstdate? Data.headings = none :=
    List.findIdx?_eq_none_iff.mpr h
  refine ⟨?_, ?_, fun lat lon factor hne hclose => ?_⟩
  · simp [get_dates, hidx]
  · simp [get_mean_series, hidx]
  · have hni := nearest_index_ok_of_not_le hne hclose
    cases Data with
    | mk headings records =>
      simp only [extract_series_from_latlon]
      rw [hni]
      simp [hidx]

/-- C9 witness: a dataset with headings Latitude/Longitude/foo (none starting
with "20") makes all three operations fail with the index error. -/
theorem linspace_length (a b : ℚ) (n : Nat) : (linspace a b n).length = n := by
  unfold linspace
  split <;> rename_i h
  · simp [h]
  · split <;> rename_i h1
    · simp [h1]
    · rw [List.length_map, List.length_range]

/-- C1 counterexample: a transect whose geodesic length (1 m) is shorter than
the spacing (2 m) has n = floor(L/spacing) = 0 < 2, and the source raises
(np.zeros with the negative dimension len(lats)-1 = -1) instead of returning
an empty box sequence. -/
theorem c1_counterexample :
    (⌊(1 : ℚ) / 2⌋ = 0) ∧
    segment_line_to_boxes (fun _ _ _ _ => 1) 0 1 0 1 2 1 = none := by
  decide

/-- C1 (amended): with n = floor(L/spacing), the segmentation produces
exactly n - 1 sampling boxes when n ≥ 1 (so n = 1 gives an empty box
sequence returned normally), and every returned box's 5-point corner ring is
closed (first corner equals last corner); but when n = 0 the construction
errors (negative array dimension) instead of returning an empty sequence. -/
theorem c1_segment_line_to_boxes_amended (gdist : ℚ → ℚ → ℚ → ℚ → ℚ)
    (x0 x1 y0 y1 spacing width : ℚ) (hsp : spacing ≠ 0) :
    (⌊gdist y0 x0 y1 x1 / spacing⌋ = 0 →
      segment_line_to_boxes gdist x0 x1 y0 y1 spacing width = none) ∧
    (1 ≤ ⌊gdist y0 x0 y1 x1 / spacing⌋ →
      gdist 0 0 (-(y1 - y0)) (x1 - x0) ≠ 0 →
      ∃ BX BY lats lons,
        segment_line_to_boxes gdist x0 x1 y0 y1 spacing width =
          some (BX, BY, lats, lons) ∧
        BX.length = ⌊gdist y0 x0 y1 x1 / spacing⌋.toNat - 1 ∧
        BY.length = ⌊gdist y0 x0 y1 x1 / spacing⌋.toNat - 1 ∧
        lats.length = ⌊gdist y0 x0 y1 x1 / spacing⌋.toNat ∧
        (∀ row ∈ BX, row.length = 5 ∧ row.headD 0 = row.getLastD 1) ∧
        (∀ row ∈ BY, row.length = 5 ∧ row.headD 0 = row.getLastD 1)) := by
  constructor
  · intro hfl
    simp only [segment_line_to_boxes]
    rw [if_neg hsp, hfl]
    simp
  · intro hfl hnl
    have hn0 : ¬ (⌊gdist y0 x0 y1 x1 / spacing⌋.toNat = 0) := by omega
    have hneg : ¬ (⌊gdist y0 x0 y1 x1 / spacing⌋ < 0) := by omega
    simp only [segment_line_to_boxes]
    rw [if_neg hsp, if_neg hneg, if_neg hnl, if_neg hn0]
    refine ⟨_, _, _, _, rfl, ?_, ?_, ?_, ?_, ?_⟩
    · simp
    · simp
    · exact linspace_length _ _ _
    · intro row hrow
      simp only [List.map_map, List.mem_map] at hrow
      obtain ⟨i, -, rfl⟩ := hrow
      exact ⟨rfl, rfl⟩
    · intro row hrow
      simp only [List.map_map, List.mem_map] at hrow
      obtain ⟨i, -, rfl⟩ := hrow
      exact ⟨rfl, rfl⟩

/-- C1 witness: a constant-5 m geodesic with spacing 2 m gives
n = floor(5/2) = 2 sample points and exactly one closed box. -/
theorem c1_witness :
    ∃ BX BY lats lons,
      segment_line_to_boxes (fun _ _ _ _ => 5) 0 1 0 1 2 1 =
        some (BX, BY, lats, lons) ∧
      BX.length = ⌊(fun _ _ _ _ => (5 : ℚ)) 0 0 1 1 / 2⌋.toNat - 1 ∧
      BY.length = ⌊(fun _ _ _ _ => (5 : ℚ)) 0 0 1 1 / 2⌋.toNat - 1 ∧
      lats.length = ⌊(fun _ _ _ _ => (5 : ℚ)) 0 0 1 1 / 2⌋.toNat ∧
      (∀ row ∈ BX, row.length = 5 ∧ row.headD 0 = row.getLastD 1) ∧
      (∀ row ∈ BY, row.length = 5 ∧ row.headD 0 = row.getLastD 1) :=
  (c1_segment_line_to_boxes_amended (fun _ _ _ _ => 5) 0 1 0 1 2 1
    (by decide)).2 (by decide) (by decide)

/-- C4: when no first difference of the series is non-positive (a strictly
increasing, degenerate monotonic series), the sinusoidal fit fails with the
no-downturn error, surfaced as an explicit failure to the immediate caller;
otherwise, with the first non-positive difference at index i, the phase
initial guess is period0/4 minus the time offset from the series start to
that point. -/
theorem c4_sinusoid_downturn (solver : List ℚ → (ℚ × ℚ × ℚ × ℚ) × ℚ)
    (Series dates : List ℚ) :
    ((∀ i, i < Series.length - 1 →
        ¬ (Series.getD (i + 1) 0 - Series.getD i 0 ≤ 0)) →
      fit_sinusoid_to_series solver Series dates = .error .noDownturnFound) ∧
    (∀ i, i < Series.length - 1 →
      Series.getD (i + 1) 0 - Series.getD i 0 ≤ 0 →
      (∀ j, j < i → ¬ (Series.getD (j + 1) 0 - Series.getD j 0 ≤ 0)) →
      sinusoid_guesses Series dates =
        .ok [(npMax Series - npMin Series) / 2, 365,
             365 / 4 - (dates.getD i 0 - dates.headD 0), npMean Series]) := by
  constructor
  · intro hmono
    have hfd : first_downturn Series = none := by
      unfold first_downturn
      rw [List.findIdx?_eq_none_iff]
      intro d hd
      obtain ⟨i, hi, rfl⟩ := List.mem_iff_getElem.mp hd
      have hib : i < Series.length - 1 := by rwa [npDiff_length] at hi
      rw [← getD_eq_getElem_q hi, npDiff_getD _ _ hi]
      simp only [decide_eq_false_iff_not]
      exact hmono i hib
    have hg : sinusoid_guesses Series dates = .error .noDownturnFound := by
      simp only [sinusoid_guesses]
      rw [hfd]
    simp only [fit_sinusoid_to_series]
    rw [hg]
  · intro i hi hle hfirst
    have hid : i < (npDiff Series).length := by rwa [npDiff_length]
    have hfd : first_downturn Series = some i := by
      unfold first_downturn
      rw [List.findIdx?_eq_some_iff_getElem]
      refine ⟨hid, ?_, fun j hj => ?_⟩
      · rw [← getD_eq_getElem_q hid, npDiff_getD _ _ hid]
        simpa only [decide_eq_true_eq] using hle
      · have hjd : j < (npDiff Series).length := Nat.lt_trans hj hid
        rw [← getD_eq_getElem_q hjd, npDiff_getD _ _ hjd]
        simp only [Bool.not_eq_true, decide_eq_false_iff_not]
        exact hfirst j hj
    simp only [sinusoid_guesses]
    rw [hfd]

/-- C4 witness: the strictly increasing series [0,1,2] makes the sinusoidal
fit fail with the no-downturn error, and the series [0,2,1] (first
non-positive difference at index 1) gets phase guess 365/4 - 10 over the
dates [0,10,20]. -/
theorem c4_witness :
    fit_sinusoid_to_series (fun _ => ((0, 0, 0, 0), 0)) [0, 1, 2] [0, 10, 20] =
      .error .noDownturnFound ∧
    sinusoid_guesses [0, 2, 1] [0, 10, 20] =
      .ok [(npMax [0, 2, 1] - npMin [0, 2, 1]) / 2, 365,
           365 / 4 - (([0, 10, 20] : List ℚ).getD 1 0 -
             ([0, 10, 20] : List ℚ).headD 0), npMean [0, 2, 1]] :=
  ⟨(c4_sinusoid_downturn (fun _ => ((0, 0, 0, 0), 0)) [0, 1, 2]
      [0, 10, 20]).1 (by decide),
   (c4_sinusoid_downturn (fun _ => ((0, 0, 0, 0), 0)) [0, 2, 1]
      [0, 10, 20]).2 1 (by decide) (by decide) (by decide)⟩

/-- C5: every successful sinusoidal fit whose solver respects the box
constraints (scipy's documented contract for bounded minimize) returns
parameters inside amplitude ∈ [0,30], period ∈ [0,400], phase ∈ [-20,400],
mean ∈ [0,100], and its reported misfit is the solver's final objective value
divided by the series length. -/
theorem c5_sinusoid_bounds_misfit (solver : List ℚ → (ℚ × ℚ × ℚ × ℚ) × ℚ)
    (Series dates : List ℚ) (hb : ∀ g, in_sin_bounds (solver g).1)
    (hlen : Series.length = dates.length) :
    ∀ mis a p ph m,
      fit_sinusoid_to_series solver Series dates = .ok (mis, a, p, ph, m) →
      in_sin_bounds (a, p, ph, m) ∧
      ∃ g, sinusoid_guesses Series dates = .ok g ∧
        mis = (solver g).2 / Series.length := by
  intro mis a p ph m hfit
  simp only [fit_sinusoid_to_series] at hfit
  cases hg : sinusoid_guesses Series dates with
  | error e =>
    rw [hg] at hfit
    cases hfit
  | ok g =>
    rw [hg] at hfit
    have h := Except.ok.inj hfit
    simp only [Prod.mk.injEq] at h
    obtain ⟨h1, h2, h3, h4, h5⟩ := h
    subst h1; subst h2; subst h3; subst h4; subst h5
    refine ⟨hb g, g, rfl, ?_⟩
    rw [hlen]

/-- C5 witness: a concrete in-bounds solver on the series [0,2,1] (downturn at
index 1) yields a successful fit within the box constraints and misfit
fun/3. -/
theorem c5_witness :
    in_sin_bounds (0, 365, 0, 0) ∧
    ∃ g, sinusoid_guesses [0, 2, 1] [0, 10, 20] = .ok g ∧
      (7 : ℚ) / 3 =
        ((fun _ => ((0, 365, 0, 0), (7 : ℚ))) g).2 / ([0, 2, 1] : List ℚ).length :=
  c5_sinusoid_bounds_misfit (fun _ => ((0, 365, 0, 0), 7)) [0, 2, 1]
    [0, 10, 20] (fun _ => (by decide : in_sin_bounds (0, 365, 0, 0)))
    (by decide) (7/3) 0 365 0 0 (by decide)

/-- C3: the linear fit passes initial guesses
slope0 = (max(Series) - min(Series)) / (t_last - t_first) and
intercept0 = Series[0] to the solver, and its reported misfit is the mean
over all points of sqrt(|value^2 - fitted^2|) with
fitted = est_slope * (t - t0) + est_intercept, t0 the first date. -/
theorem c3_fit_straight_line (solver : ℚ × ℚ → ℚ × ℚ) (sqrtA : ℚ → ℚ)
    (Series dates : List ℚ) (hlen : Series.length = dates.length) :
    fit_straight_line_to_series solver sqrtA Series dates =
      (spec_lin_misfit sqrtA Series dates
        (solver (spec_lin_slope0 Series dates, spec_lin_intercept0 Series)).1
        (solver (spec_lin_slope0 Series dates, spec_lin_intercept0 Series)).2,
       (solver (spec_lin_slope0 Series dates, spec_lin_intercept0 Series)).1,
       (solver (spec_lin_slope0 Series dates, spec_lin_intercept0 Series)).2) := by
  have hg : lin_guesses Series dates =
      (spec_lin_slope0 Series dates, spec_lin_intercept0 Series) := rfl
  simp only [fit_straight_line_to_series, hg, spec_lin_misfit, listMean]
  rw [List.zipWith_map_right, List.zip_eq_zipWith, List.map_zipWith]
  have hL : ∀ F : ℚ → ℚ → ℚ,
      (List.zipWith F Series dates).length = dates.length := by
    intro F
    rw [List.length_zipWith, hlen, Nat.min_self]
  rw [hL]

/-- C3 witness: the identity solver and identity square root on the series
[1,2] over dates [0,10]. -/
theorem c3_witness :
    fit_straight_line_to_series (fun q => q) (fun q => q) [1, 2] [0, 10] =
      (spec_lin_misfit (fun q => q) [1, 2] [0, 10]
        ((fun q => q) (spec_lin_slope0 [1, 2] [0, 10],
          spec_lin_intercept0 [1, 2])).1
        ((fun q => q) (spec_lin_slope0 [1, 2] [0, 10],
          spec_lin_intercept0 [1, 2])).2,
       ((fun q => q) (spec_lin_slope0 [1, 2] [0, 10],
         spec_lin_intercept0 [1, 2])).1,
       ((fun q => q) (spec_lin_slope0 [1, 2] [0, 10],
         spec_lin_intercept0 [1, 2])).2) :=
  c3_fit_straight_line (fun q => q) (fun q => q) [1, 2] [0, 10] (by decide)

theorem c9_witness :
    get_dates (fun _ => 0)
      ⟨["Latitude", "Longitude", "foo"], [⟨0, 0, [0, 0, 1]⟩]⟩ =
      .error .indexError ∧
    get_mean_series ⟨["Latitude", "Longitude", "foo"], [⟨0, 0, [0, 0, 1]⟩]⟩ =
      .error .indexError ∧
    extract_series_from_latlon (fun _ => 0) 0 0
      ⟨["Latitude", "Longitude", "foo"], [⟨0, 0, [0, 0, 1]⟩]⟩ 1 =
      .error .indexError := by
  have h := c9_no_date_column (fun _ => 0)
    ⟨["Latitude", "Longitude", "foo"], [⟨0, 0, [0, 0, 1]⟩]⟩ (by decide)
  exact ⟨h.1, h.2.1, h.2.2 0 0 1 (by decide) (by decide)⟩

end
